import Mathlib

/-!
Verification of the batch LLM-annotation scripts (`ai_explain.py`, `ai_yes_no.py`).

Python strings are embedded as `List Char` (`PyStr`); CSV tables as
`List (List PyStr)` (a list of rows of cells); text files as their `PyStr`
content.  Stateful pieces (the retry loop, the concurrent fan-out, file
writes) are embedded as explicit state passing: the retry loop over an
oracle giving each attempt's outcome, the fan-out over an oracle giving each
task's outcome plus an arbitrary completion order, and a file write as a
function from the old content to the new content.
-/

/-- Embedding of a Python `str` as its list of characters. -/
abbrev PyStr := List Char

/-- The characters of a Lean string literal, used to spell concrete Python
strings. -/
def strChars (s : String) : PyStr := s.data

/-- The whitespace class used by Python's default `str.strip` and by the
regex class `\s` (restricted to ASCII): space, tab, newline, carriage
return, vertical tab, form feed. -/
def pyIsSpace (c : Char) : Bool :=
  c = ' ' || c = '\t' || c = '\n' || c = '\r' || c = '\x0b' || c = '\x0c'

/-- Embedding of Python `str.strip()`: drop whitespace from both ends. -/
def pyStrip (s : PyStr) : PyStr :=
  ((s.dropWhile pyIsSpace).reverse.dropWhile pyIsSpace).reverse

/-- Embedding of Python `str.split(sep)` for a one-character separator:
split on every occurrence, keeping empty pieces. -/
def pySplit (sep : Char) : PyStr → List PyStr
  | [] => [[]]
  | c :: cs =>
    match pySplit sep cs with
    | [] => []
    | h :: t => if c = sep then [] :: h :: t else (c :: h) :: t

/-- Embedding of Python `sep.join(pieces)`. -/
def pyJoin (sep : PyStr) : List PyStr → PyStr
  | [] => []
  | [l] => l
  | l :: ls => l ++ sep ++ pyJoin sep ls

/-- The sentence-terminating punctuation tuple of
`sentence.endswith(('。', '.', '！', '!', '？', '?'))`
(`ai_explain.py` line 29, `ai_yes_no.py` line 38). -/
def terminators : List Char := ['。', '.', '！', '!', '？', '?']

/-- Embedding of `sentence.endswith(('。', '.', '！', '!', '？', '?'))`:
each suffix is a single character, so this is a test on the last
character. -/
def endsWithTerminator (s : PyStr) : Bool :=
  match s.getLast? with
  | some c => terminators.contains c
  | none => false

/-- The normalization applied by `load_sentences_from_csv` to a non-empty
first cell: strip, then append `。` unless the text already ends in a
recognized terminator (`ai_explain.py` lines 28-30). -/
def normalize_sentence (cell : PyStr) : PyStr :=
  let sentence := pyStrip cell
  if endsWithTerminator sentence then sentence else sentence ++ ['。']

/-- One iteration of the loader's row loop: `if row and row[0].strip():`
keeps the row only when it is non-empty and its first cell strips to
non-empty text (`ai_explain.py` lines 27-31). -/
def loadRow (idx : Nat) (row : List PyStr) : Option (Nat × PyStr) :=
  match row with
  | [] => none
  | cell0 :: _ =>
    if pyStrip cell0 = [] then none else some (idx, normalize_sentence cell0)

/-- Embedding of `load_sentences_from_csv` applied to the data rows (the
header row has already been consumed by `next(reader, None)`): enumerate
rows from 1, keep rows with a non-blank first cell, normalize
(`ai_explain.py` lines 21-32, identical in `ai_yes_no.py` lines 30-41). -/
def load_sentences_from_csv (dataRows : List (List PyStr)) : List (Nat × PyStr) :=
  (dataRows.enumFrom 1).filterMap (fun p => loadRow p.1 p.2)

/-- Embedding of `split_result_lines` (`ai_explain.py` lines 58-64):
strip the text, split on newlines, strip each line, drop blanks; return
`(None, None)` when nothing survives, else the first line and the rest
joined by newline (Python's `'\n'.join(lines[1:]) if len(lines) > 1 else ''`). -/
def split_result_lines (text : PyStr) : Option PyStr × Option PyStr :=
  let lines := ((pySplit '\n' (pyStrip text)).map pyStrip).filter (fun l => decide (l ≠ []))
  if lines = [] then (none, none)
  else (some (lines.headD []),
    some (if lines.length > 1 then pyJoin ['\n'] (lines.drop 1) else []))

/-- Outcome of one `call_gemini_api` invocation: a response text, or a
raised `ServerError` (the only exception class caught by the retry loop). -/
inductive CallOutcome
  | success (text : PyStr)
  | serverError
deriving DecidableEq

/-- Observable trace of one `process_prompt_with_retry` run: the returned
value, the number of `call_gemini_api` invocations made, and the number of
`[Retry i/retries] ...` messages printed. -/
structure RetryTrace where
  result : Option PyStr
  attempts : Nat
  retryMessages : Nat
deriving DecidableEq

/-- The body of `for i in range(retries)` of `process_prompt_with_retry`
(`ai_yes_no.py` lines 51-60, `ai_explain.py` lines 42-50), from attempt
index `i` with the given number of iterations remaining: a successful call
returns at once; a `ServerError` prints one retry message and continues;
falling off the loop returns `None`. -/
def retryGo (call : Nat → CallOutcome) (i : Nat) : Nat → RetryTrace
  | 0 => ⟨none, 0, 0⟩
  | remaining + 1 =>
    match call i with
    | .success t => ⟨some t, 1, 0⟩
    | .serverError =>
      let r := retryGo call (i + 1) remaining
      ⟨r.result, r.attempts + 1, r.retryMessages + 1⟩

/-- Embedding of `process_prompt_with_retry(prompt, api_key, retries, delay)`
over an oracle giving each attempt's outcome; the initial jitter sleep and
the inter-retry delay have no observable effect on the trace. -/
def process_prompt_with_retry (call : Nat → CallOutcome) (retries : Nat) : RetryTrace :=
  retryGo call 0 retries

/-- What `process_all_prompts` in `ai_yes_no.py` (lines 69-76) stores into
slot `i` once future `i` completes: an exception leaves the slot `None`
(`results[i] = None`), a returned value is `result.strip() if result else
None`, so `None` and the empty string both store `None`. -/
def collectResult (outcome : Except Unit (Option PyStr)) : Option PyStr :=
  match outcome with
  | .error _ => none
  | .ok none => none
  | .ok (some t) => if t = [] then none else some (pyStrip t)

/-- Embedding of `process_all_prompts` (`ai_yes_no.py` lines 62-77):
`results = [None] * len(prompts)`; each future is keyed by its submission
index `i` in `future_to_index`, and as futures complete (in the arbitrary
order `order`, a permutation of the indices) slot `i` receives the value
determined by task `i`'s outcome alone. -/
def process_all_prompts (prompts : List PyStr)
    (outcomes : Nat → Except Unit (Option PyStr)) (order : List Nat) :
    List (Option PyStr) :=
  order.foldl (fun results i => results.set i (collectResult (outcomes i)))
    (List.replicate prompts.length none)

/-- The two columns of `ai_yes_no.py`'s output CSV. -/
def colSentence : PyStr := strChars "原句"

/-- The column appended by `ai_yes_no.py`'s `write_results_to_csv`. -/
def colUnderstand : PyStr := strChars "AI理解"

/-- Embedding of `while len(rows) <= idx: rows.append([""] * len(rows[0]))`
(`ai_yes_no.py` lines 96-97): grow the table with empty-cell rows of header
width until row `idx` exists. -/
def growRows (rows : List (List PyStr)) (idx : Nat) : List (List PyStr) :=
  rows ++ List.replicate (idx + 1 - rows.length)
    (List.replicate (rows.headD []).length ([] : PyStr))

/-- One iteration of the `for idx, sentence, result in indexed_results`
loop of `ai_yes_no.py`'s `write_results_to_csv` (lines 95-101): grow the
table to reach row `idx`, pad that row to at least two cells, then write
the sentence into cell 0 and the result into cell 1. -/
def writeRowYesNo (rows : List (List PyStr)) (idx : Nat) (sentence result : PyStr) :
    List (List PyStr) :=
  let rows := growRows rows idx
  let row := rows.getD idx []
  let row := row ++ List.replicate (2 - row.length) ([] : PyStr)
  rows.set idx ((row.set 0 sentence).set 1 result)

/-- Embedding of `ai_yes_no.py`'s `write_results_to_csv` (lines 82-105) on
the in-memory table: a missing or empty file becomes the default header
`[["原句", "AI理解"]]`; a header of fewer than two cells gets `"AI理解"`
appended; then each `(idx, sentence, result)` triple is merged in.  The
input `rows` includes the header at position 0, so row `idx` is the
1-based data row `idx`. -/
def write_results_to_csv (rows : List (List PyStr))
    (indexed_results : List (Nat × PyStr × PyStr)) : List (List PyStr) :=
  let rows := if rows = [] then [[colSentence, colUnderstand]] else rows
  let rows :=
    match rows with
    | [] => []
    | h :: t => (if h.length < 2 then h ++ [colUnderstand] else h) :: t
  indexed_results.foldl (fun rows r => writeRowYesNo rows r.1 r.2.1 r.2.2) rows

/-- The judgment column name of `ai_explain.py`'s CSV sink. -/
def colJudge : PyStr := strChars "ai判断"

/-- The explanation column name of `ai_explain.py`'s CSV sink. -/
def colExplain : PyStr := strChars "ai理解"

/-- The body of the `for i, result in enumerate(results)` loop of
`ai_explain.py`'s `write_results_to_csv` (lines 74-81) for one truthy
result: pad `data_rows[row_index]` to header width, then overwrite the
`ai判断` and `ai理解` cells with the split result (`judgment or ""`,
`explanation or ""`).  `none` models the `IndexError` raised when
`row_index` is out of range. -/
def writeRowExplain (header : List PyStr) (dataRows : List (List PyStr))
    (rowIndex : Nat) (result : PyStr) : Option (List (List PyStr)) :=
  if rowIndex < dataRows.length then
    let row := dataRows.getD rowIndex []
    let row := row ++ List.replicate (header.length - row.length) ([] : PyStr)
    let je := split_result_lines result
    let row := row.set (header.indexOf colJudge) (je.1.getD [])
    let row := row.set (header.indexOf colExplain) (je.2.getD [])
    some (dataRows.set rowIndex row)
  else none

/-- Embedding of `ai_explain.py`'s `write_results_to_csv(csv_path, results,
offset)` (lines 66-83) on the in-memory table: split off the header
(`none` models the `IndexError` on an empty file), append the `ai判断`
and `ai理解` columns if missing, then write each truthy result at
`row_index = offset + i` (a falsy result — `None` or the empty string —
is skipped by `if result:`). -/
def write_results_to_csv_explain (rows : List (List PyStr))
    (results : List (Option PyStr)) (offset : Nat) : Option (List (List PyStr)) :=
  match rows with
  | [] => none
  | header0 :: dataRows =>
    let header := if header0.contains colJudge then header0 else header0 ++ [colJudge]
    let header := if header.contains colExplain then header else header ++ [colExplain]
    (results.enum.foldlM
      (fun dr (p : Nat × Option PyStr) =>
        match p.2 with
        | none => some dr
        | some t => if t = [] then some dr else writeRowExplain header dr (offset + p.1) t)
      dataRows).map (header :: ·)

/-- The decimal digit character for `d` (with `d % 10`-style clamping to
`'9'` for out-of-range inputs, which never arise). -/
def digitChar (d : Nat) : Char :=
  if d = 0 then '0' else if d = 1 then '1' else if d = 2 then '2'
  else if d = 3 then '3' else if d = 4 then '4' else if d = 5 then '5'
  else if d = 6 then '6' else if d = 7 then '7' else if d = 8 then '8' else '9'

/-- Fuel-driven decimal rendering: most significant digit first.  The fuel
only serves to make the recursion structural; `n < fuel` suffices for it
never to run out. -/
def renderNatGo : Nat → Nat → PyStr
  | 0, _ => []
  | fuel + 1, n =>
    if n < 10 then [digitChar n]
    else renderNatGo fuel (n / 10) ++ [digitChar (n % 10)]

/-- Decimal rendering of a natural number, the embedding of Python's
f-string interpolation of an `int`. -/
def renderNat (n : Nat) : PyStr := renderNatGo (n + 1) n

/-- One failure-log line, `f"[{idx}] {sentence}\n"` (`ai_explain.py`
line 99, `ai_yes_no.py` line 112). -/
def failedLine (idx : Nat) (sentence : PyStr) : PyStr :=
  '[' :: renderNat idx ++ ']' :: ' ' :: sentence ++ ['\n']

/-- The text written by `ai_explain.py`'s `write_failed_to_txt` (lines
95-99): one `[idx] sentence` line per pair whose result `is None`, in
order.  The file is opened with mode `'w'`, so this is the whole file
content afterward, whatever it held before. -/
def write_failed_to_txt : List (Nat × PyStr) → List (Option PyStr) → PyStr
  | [], _ => []
  | _, [] => []
  | (idx, sentence) :: ps, r :: rs =>
    (if r.isNone then failedLine idx sentence else []) ++ write_failed_to_txt ps rs

/-- Python truthiness test `if not result:` of `ai_yes_no.py` line 111:
true for `None` and for the empty string. -/
def resultFalsy (r : Option PyStr) : Bool :=
  match r with
  | none => true
  | some t => t = []

/-- Embedding of `ai_yes_no.py`'s `write_results_to_txt` (lines 107-112)
as a file update: the file is opened with mode `'a'`, so the failure lines
for this batch are appended to the old content. -/
def write_results_to_txt (old : PyStr) : List (Nat × PyStr) → List (Option PyStr) → PyStr
  | [], _ => old
  | _, [] => old
  | (idx, sentence) :: ps, r :: rs =>
    write_results_to_txt
      (old ++ if resultFalsy r then failedLine idx sentence else []) ps rs

/-- One success-log block of `ai_explain.py`'s
`write_success_results_to_txt` (lines 90-93): the sentence line, the
judgment line, the explanation line, and a 40-dash separator. -/
def successBlock (idx : Nat) (sentence judgment explanation : PyStr) : PyStr :=
  strChars "[行号 " ++ renderNat idx ++ ']' :: ' ' :: sentence ++ '\n' ::
  strChars "AI判断: " ++ judgment ++ '\n' ::
  strChars "AI理解: " ++ explanation ++ '\n' ::
  List.replicate 40 '-' ++ ['\n']

/-- The text appended by `ai_explain.py`'s `write_success_results_to_txt`
(lines 85-93, file mode `'a'`): one block per pair whose result
`is not None`, using `judgment or ""` and `explanation or ""` from
`split_result_lines`. -/
def write_success_results_to_txt : List (Nat × PyStr) → List (Option PyStr) → PyStr
  | [], _ => []
  | _, [] => []
  | (idx, sentence) :: ps, r :: rs =>
    (match r with
     | none => []
     | some t =>
       let je := split_result_lines t
       successBlock idx sentence (je.1.getD []) (je.2.getD [])) ++
    write_success_results_to_txt ps rs

/-- Decimal value of a digit string, the embedding of Python `int(s)` on
the digit group captured by the regex. -/
def parseNatDigits (ds : PyStr) : Nat :=
  ds.foldl (fun n c => n * 10 + (c.toNat - 48)) 0

/-- Embedding of `re.match(r'\[(\d+)\]\s+(.*)', line)` on a stripped line:
a literal `[`, a non-empty maximal digit run (group 1, converted with
`int`), a literal `]`, at least one whitespace character, and the rest of
the line (group 2).  `ai_explain.py` lines 106-108. -/
def parseFailedLine (line : PyStr) : Option (Nat × PyStr) :=
  match line with
  | [] => none
  | c :: rest =>
    if c = '[' then
      let ds := rest.takeWhile Char.isDigit
      if ds = [] then none
      else
        match rest.dropWhile Char.isDigit with
        | [] => none
        | c2 :: rest2 =>
          if c2 = ']' then
            if rest2.takeWhile pyIsSpace = [] then none
            else some (parseNatDigits ds, rest2.dropWhile pyIsSpace)
          else none
    else none

/-- Embedding of `load_failed_sentences` (`ai_explain.py` lines 101-111)
on the file's content: Python's line iteration yields newline-terminated
chunks, and since each chunk is stripped before matching, iterating the
pieces of `content.split('\n')` is equivalent; lines the regex rejects are
dropped. -/
def load_failed_sentences (content : PyStr) : List (Nat × PyStr) :=
  ((pySplit '\n' content).map pyStrip).filterMap parseFailedLine

/-- The exception classes CPython's `str.format` raises on the templates
this program can be configured with: `KeyError` for a field looked up as a
keyword (any field that is not empty and not all digits, e.g. `x`, `0a` or
a space), `IndexError` for a positional index with no matching argument
(an explicit index other than 0, or a second automatic field), and
`ValueError` for an unpaired brace, a brace inside a field name, or mixing
automatic and manual numbering.  `unmodeled` marks the field constructs
left outside this model (conversions `!`, format specs `:`, attribute or
index access), which none of the program's templates use; no theorem here
quantifies over templates that can reach it. -/
inductive FormatError
  | keyError
  | indexError
  | valueError
  | unmodeled
deriving DecidableEq

deriving instance DecidableEq for Except

/-- Field-name characters whose interpretation (conversion, format spec,
attribute or index access) is outside the modelled subset of
`str.format`. -/
def fieldUnmodeledChar (c : Char) : Bool :=
  c = '!' || c = ':' || c = '.' || c = '['

/-- One replacement-field substitution of `str.format` with the single
positional argument `arg`: `field` is the text between the braces,
`autoUsed` counts automatic `\x7b\x7d` fields already numbered and
`manualUsed` records whether an explicit index was used.  Returns the
substituted text with the updated numbering state, or the raised error
(checked against CPython: a brace in the field is a `ValueError`, an empty
field after a manual one — and an explicit index after an automatic
field — is the `ValueError` numbering switch, a second automatic field or
an index other than 0 is an `IndexError`, and any other plain field is a
`KeyError`). -/
def applyField (arg field : PyStr) (autoUsed : Nat) (manualUsed : Bool) :
    Except FormatError (PyStr × Nat × Bool) :=
  if field.contains '\x7b' then .error .valueError
  else if field.any fieldUnmodeledChar then .error .unmodeled
  else if field = [] then
    if manualUsed then .error .valueError
    else if autoUsed = 0 then .ok (arg, 1, manualUsed)
    else .error .indexError
  else if field.all Char.isDigit then
    if autoUsed ≠ 0 then .error .valueError
    else if parseNatDigits field = 0 then .ok (arg, autoUsed, true)
    else .error .indexError
  else .error .keyError

/-- Fuel-driven scan of a format template, embedding `template.format(arg)`
with one positional argument: literal characters are copied,
`\x7b\x7b`/`\x7d\x7d` unescape to single braces, a lone trailing `\x7b` or
an unpaired `\x7d` raises `ValueError`, and each replacement field (the
characters up to the next `\x7d`) is handled by `applyField`.  The fuel
only makes the recursion structural: one unit per consumed character
suffices, so `pyFormat` passes the template's length and the fuel-out
branch is unreachable. -/
def pyFormatGo (arg : PyStr) : Nat → Nat → Bool → PyStr → Except FormatError PyStr
  | _, _, _, [] => .ok []
  | 0, _, _, _ :: _ => .error .unmodeled
  | fuel + 1, autoUsed, manualUsed, c :: rest =>
    if c = '\x7b' then
      match rest with
      | [] => .error .valueError
      | c2 :: rest2 =>
        if c2 = '\x7b' then
          match pyFormatGo arg fuel autoUsed manualUsed rest2 with
          | .ok t => .ok ('\x7b' :: t)
          | .error e => .error e
        else
          let field := (c2 :: rest2).takeWhile (fun d => decide (d ≠ '\x7d'))
          match (c2 :: rest2).dropWhile (fun d => decide (d ≠ '\x7d')) with
          | [] => .error .valueError
          | _ :: afterRest =>
            match applyField arg field autoUsed manualUsed with
            | .error e => .error e
            | .ok (sub, autoUsed2, manualUsed2) =>
              match pyFormatGo arg fuel autoUsed2 manualUsed2 afterRest with
              | .ok t => .ok (sub ++ t)
              | .error e => .error e
    else if c = '\x7d' then
      match rest with
      | [] => .error .valueError
      | c2 :: rest2 =>
        if c2 = '\x7d' then
          match pyFormatGo arg fuel autoUsed manualUsed rest2 with
          | .ok t => .ok ('\x7d' :: t)
          | .error e => .error e
        else .error .valueError
    else
      match pyFormatGo arg fuel autoUsed manualUsed rest with
      | .ok t => .ok (c :: t)
      | .error e => .error e

/-- Embedding of `template.format(sentence)`: scan with fresh numbering
state; the raised exception, when one occurs, propagates out of the list
comprehension in `build_prompts`. -/
def pyFormat (template arg : PyStr) : Except FormatError PyStr :=
  pyFormatGo arg template.length 0 false template

/-- Embedding of `build_prompts` (`ai_explain.py` lines 34-35,
`ai_yes_no.py` lines 79-80): one `template.format(sentence)` per indexed
sentence, in order; the comprehension stops at the first raised
formatting error. -/
def build_prompts (template : PyStr) : List (Nat × PyStr) → Except FormatError (List PyStr)
  | [] => .ok []
  | p :: ps =>
    match pyFormat template p.2 with
    | .error e => .error e
    | .ok v =>
      match build_prompts template ps with
      | .error e => .error e
      | .ok vs => .ok (v :: vs)

/-- C5: a row whose trimmed first cell does not end in a recognized
terminator is loaded as the trimmed text followed by the default
terminator `。`; one whose trimmed first cell already ends in a recognized
terminator is loaded as the trimmed text unchanged. -/
theorem C5_normalization (cell : PyStr) (rest : List PyStr) (idx : Nat)
    (h : pyStrip cell ≠ []) :
    (endsWithTerminator (pyStrip cell) = false →
      loadRow idx (cell :: rest) = some (idx, pyStrip cell ++ ['。'])) ∧
    (endsWithTerminator (pyStrip cell) = true →
      loadRow idx (cell :: rest) = some (idx, pyStrip cell)) := by
  unfold loadRow normalize_sentence
  constructor <;> intro ht <;> simp [h, ht]

/-- Witness for C5 at a concrete unterminated cell and a concrete
terminated cell. -/
theorem C5_normalization_witness :
    loadRow 1 [strChars " 明天 "] = some (1, pyStrip (strChars " 明天 ") ++ ['。']) ∧
    loadRow 2 [strChars "天气很好。"] = some (2, pyStrip (strChars "天气很好。")) :=
  ⟨(C5_normalization (strChars " 明天 ") [] 1 (by decide)).1 (by decide),
   (C5_normalization (strChars "天气很好。") [] 2 (by decide)).2 (by decide)⟩

/-- C6: `split_result_lines` trims each line of the text and drops blank
lines; with no surviving line it returns `(None, None)`; otherwise the
judgment is the first surviving line and the explanation is the remaining
surviving lines joined by newline (the empty string when only one line
survives, since the join of no lines is empty). -/
theorem C6_split_result_lines (text : PyStr) :
    split_result_lines text =
      match ((pySplit '\n' (pyStrip text)).map pyStrip).filter (fun l => decide (l ≠ [])) with
      | [] => (none, none)
      | j :: rest => (some j, some (pyJoin ['\n'] rest)) := by
  unfold split_result_lines
  cases h : ((pySplit '\n' (pyStrip text)).map pyStrip).filter (fun l => decide (l ≠ [])) with
  | nil => simp
  | cons j rest =>
    cases rest with
    | nil => simp [pyJoin]
    | cons b t => simp [Nat.succ_lt_succ, pyJoin]

/-- C7 counterexample: no `TemplateError` exists.  A brace-free template
lacking the placeholder does not fail — `build_prompts` produces prompts,
each the literal template; templates lacking the placeholder that do fail
raise `str.format`'s own `KeyError` (`\x7bx\x7d`) or `ValueError`
(a lone `\x7b`); and a template that does contain the placeholder can
still fail (`\x7b0\x7d\x7b1\x7d` raises `IndexError`), so no prompt list
is returned there either. -/
theorem C7_counterexample :
    build_prompts (strChars "判断：") [(1, strChars "天气很好。")] =
      .ok [strChars "判断："] ∧
    build_prompts (strChars "\x7bx\x7d") [(1, strChars "天气很好。")] =
      .error FormatError.keyError ∧
    build_prompts (strChars "判断\x7b") [(1, strChars "天气很好。")] =
      .error FormatError.valueError ∧
    build_prompts (strChars "判断：\x7b0\x7d\x7b1\x7d") [(1, strChars "天气很好。")] =
      .error FormatError.indexError := by decide

/-- Lemma for C7: on a template containing no brace at all, the format
scan copies the template literally and succeeds, for any argument and any
numbering state, as long as the fuel covers its length. -/
theorem pyFormatGo_no_brace (arg : PyStr) (fuel : Nat) :
    ∀ template : PyStr, template.length ≤ fuel →
      '\x7b' ∉ template → '\x7d' ∉ template →
      ∀ autoUsed manualUsed,
        pyFormatGo arg fuel autoUsed manualUsed template = .ok template := by
  induction fuel with
  | zero =>
    intro t ht _ _ a m
    obtain rfl : t = [] := List.length_eq_zero.mp (by omega)
    rfl
  | succ f ih =>
    intro t ht hb1 hb2 a m
    cases t with
    | nil => rfl
    | cons c rest =>
      have hc1 : c ≠ '\x7b' := fun h => hb1 (h ▸ List.mem_cons_self c rest)
      have hc2 : c ≠ '\x7d' := fun h => hb2 (h ▸ List.mem_cons_self c rest)
      simp only [pyFormatGo, if_neg hc1, if_neg hc2]
      rw [ih rest (by simp at ht; omega)
        (fun h => hb1 (List.mem_cons_of_mem c h))
        (fun h => hb2 (List.mem_cons_of_mem c h)) a m]

/-- Lemma for C7: a brace-free template formats to itself. -/
theorem pyFormat_no_brace (template arg : PyStr)
    (hb1 : '\x7b' ∉ template) (hb2 : '\x7d' ∉ template) :
    pyFormat template arg = .ok template :=
  pyFormatGo_no_brace arg template.length template le_rfl hb1 hb2 0 false

/-- Lemma for C7: whenever the comprehension returns a prompt list, it is
parallel to the input — same length, and slot `i` holds the successfully
formatted sentence `i`. -/
theorem build_prompts_ok (template : PyStr) (ss : List (Nat × PyStr))
    (prompts : List PyStr) (h : build_prompts template ss = .ok prompts) :
    prompts.length = ss.length ∧
    ∀ (i : Nat) (p : Nat × PyStr), ss[i]? = some p →
      ∃ v, pyFormat template p.2 = .ok v ∧ prompts[i]? = some v := by
  induction ss generalizing prompts with
  | nil =>
    simp only [build_prompts, Except.ok.injEq] at h
    subst h
    refine ⟨rfl, ?_⟩
    intro i p hp
    rw [List.getElem?_nil] at hp
    cases hp
  | cons q qs ih =>
    simp only [build_prompts] at h
    cases hf : pyFormat template q.2 with
    | error e => rw [hf] at h; simp at h
    | ok v =>
      rw [hf] at h
      cases hr : build_prompts template qs with
      | error e => rw [hr] at h; simp at h
      | ok vs =>
        rw [hr] at h
        simp only [Except.ok.injEq] at h
        subst h
        obtain ⟨hlen, hslot⟩ := ih vs hr
        refine ⟨by simp [hlen], ?_⟩
        intro i p hp
        cases i with
        | zero =>
          simp only [List.getElem?_cons_zero, Option.some.injEq] at hp
          subst hp
          exact ⟨v, hf, List.getElem?_cons_zero⟩
        | succ j =>
          simp only [List.getElem?_cons_succ] at hp ⊢
          exact hslot j p hp

/-- C7 amended: the Prompt Builder raises no `TemplateError`.  On a
template with no brace construct it does not fail at all and each prompt
is the literal template (`str.format` ignores unused arguments); and
whenever `str.format` succeeds on the template, the returned prompt
sequence is parallel to the input — same order and length, slot `i` being
the template formatted with sentence `i`'s text.  (A template lacking the
placeholder but containing other or malformed brace constructs instead
raises `str.format`'s own `KeyError`/`IndexError`/`ValueError`, per
`C7_counterexample`.) -/
theorem C7_prompt_builder (template : PyStr) (ss : List (Nat × PyStr)) :
    ('\x7b' ∉ template ∧ '\x7d' ∉ template →
      build_prompts template ss = .ok (ss.map (fun _ => template))) ∧
    ∀ prompts, build_prompts template ss = .ok prompts →
      prompts.length = ss.length ∧
      ∀ (i : Nat) (p : Nat × PyStr), ss[i]? = some p →
        ∃ v, pyFormat template p.2 = .ok v ∧ prompts[i]? = some v := by
  constructor
  · rintro ⟨hb1, hb2⟩
    induction ss with
    | nil => rfl
    | cons q qs ih =>
      simp only [build_prompts, pyFormat_no_brace template q.2 hb1 hb2, ih, List.map_cons]
  · exact fun prompts h => build_prompts_ok template ss prompts h

/-- Witness for C7: the brace-free half at the literal template `判断：`,
and the success half at template `判断：\x7b0\x7d` with two sentences. -/
theorem C7_prompt_builder_witness :
    build_prompts (strChars "判断：") [(1, strChars "甲。")] =
      .ok (([(1, strChars "甲。")] : List (Nat × PyStr)).map (fun _ => strChars "判断：")) ∧
    ([strChars "判断：天气很好。", strChars "判断：明天."].length =
        ([(1, strChars "天气很好。"), (2, strChars "明天.")] : List (Nat × PyStr)).length ∧
      ∀ (i : Nat) (p : Nat × PyStr),
        ([(1, strChars "天气很好。"), (2, strChars "明天.")] : List (Nat × PyStr))[i]? = some p →
        ∃ v, pyFormat (strChars "判断：\x7b0\x7d") p.2 = .ok v ∧
          [strChars "判断：天气很好。", strChars "判断：明天."][i]? = some v) :=
  ⟨(C7_prompt_builder (strChars "判断：") [(1, strChars "甲。")]).1 (by decide),
   (C7_prompt_builder (strChars "判断：\x7b0\x7d")
      [(1, strChars "天气很好。"), (2, strChars "明天.")]).2
     [strChars "判断：天气很好。", strChars "判断：明天."] (by decide)⟩

/-- C2 counterexample: with `retries = 3` and a client that always raises
`ServerError`, the retry loop makes 3 attempts and prints 3 retry
messages (one inside each `except` block, including the final attempt's),
not `retries - 1 = 2`. -/
theorem C2_counterexample :
    (process_prompt_with_retry (fun _ => CallOutcome.serverError) 3).result = none ∧
    (process_prompt_with_retry (fun _ => CallOutcome.serverError) 3).attempts = 3 ∧
    (process_prompt_with_retry (fun _ => CallOutcome.serverError) 3).retryMessages = 3 ∧
    (3 : Nat) ≠ 3 - 1 := by decide

/-- Lemma for C2: from any starting attempt index, a client that always
raises `ServerError` exhausts every remaining iteration, printing one
retry message per attempt. -/
theorem retryGo_all_fail (call : Nat → CallOutcome)
    (h : ∀ i, call i = CallOutcome.serverError) :
    ∀ n i, retryGo call i n = ⟨none, n, n⟩ := by
  intro n
  induction n with
  | zero => intro i; rfl
  | succ k ih =>
    intro i
    unfold retryGo
    rw [h i]
    simp [ih (i + 1)]

/-- C2 amended: if every call attempt raises a transient server error,
`process_prompt_with_retry` returns absence (`None`) rather than raising,
after exactly `retries` call attempts and exactly `retries` logged retry
messages (the loop prints its `[Retry i/retries]` message after every
failed attempt, including the last). -/
theorem C2_retry_exhaustion (call : Nat → CallOutcome) (retries : Nat)
    (h : ∀ i, call i = CallOutcome.serverError) :
    process_prompt_with_retry call retries =
      { result := none, attempts := retries, retryMessages := retries } :=
  retryGo_all_fail call h retries 0

/-- Witness for C2 amended at the default `retries = 3`. -/
theorem C2_retry_exhaustion_witness :
    process_prompt_with_retry (fun _ => CallOutcome.serverError) 3 =
      { result := none, attempts := 3, retryMessages := 3 } :=
  C2_retry_exhaustion (fun _ => CallOutcome.serverError) 3 (fun _ => rfl)

/-- Lemma for C4: folding per-index assignments preserves the length of
the result list. -/
theorem foldl_set_length (v : Nat → Option PyStr) (order : List Nat)
    (init : List (Option PyStr)) :
    (order.foldl (fun rs i => rs.set i (v i)) init).length = init.length := by
  induction order generalizing init with
  | nil => rfl
  | cons a t ih => simp [ih, List.length_set]

/-- Lemma for C4: after folding the per-index assignments in any order,
slot `i` holds its own task's value exactly when `i` was assigned, and is
untouched otherwise — the assigned value depends only on `i`, never on
the position of `i` in the order. -/
theorem foldl_set_getElem? (v : Nat → Option PyStr) (order : List Nat)
    (init : List (Option PyStr)) (i : Nat) (hi : i < init.length) :
    (order.foldl (fun rs j => rs.set j (v j)) init)[i]? =
      if i ∈ order then some (v i) else init[i]? := by
  induction order generalizing init with
  | nil => simp
  | cons a t ih =>
    simp only [List.foldl_cons]
    rw [ih (init.set a (v a)) (by simpa using hi)]
    by_cases hmem : i ∈ t
    · simp [hmem]
    · by_cases hia : i = a
      · subst hia
        simp [hmem, List.getElem?_set_eq_of_lt (v i) hi]
      · simp [hmem, hia, List.getElem?_set_ne (Ne.symm hia)]

/-- C4: for any completion order that is a permutation of the submission
indices, `process_all_prompts` returns a list of exactly the prompts'
length, slot `i` holds the value determined by task `i`'s outcome alone
(so a worker finishing earlier or later never moves a result to a
different slot, and any two completion orders give identical outputs),
and a task that raised an exception leaves only its own slot absent. -/
theorem C4_slot_alignment (prompts : List PyStr)
    (outcomes : Nat → Except Unit (Option PyStr)) (order : List Nat)
    (horder : order.Perm (List.range prompts.length)) :
    (process_all_prompts prompts outcomes order).length = prompts.length ∧
    (∀ i, i < prompts.length →
      (process_all_prompts prompts outcomes order)[i]? =
        some (collectResult (outcomes i))) ∧
    (∀ i, i < prompts.length → outcomes i = .error () →
      (process_all_prompts prompts outcomes order)[i]? = some none) := by
  have hlen : (process_all_prompts prompts outcomes order).length = prompts.length := by
    unfold process_all_prompts
    rw [foldl_set_length]
    exact List.length_replicate ..
  have hget : ∀ i, i < prompts.length →
      (process_all_prompts prompts outcomes order)[i]? =
        some (collectResult (outcomes i)) := by
    intro i hi
    unfold process_all_prompts
    rw [foldl_set_getElem? (fun j => collectResult (outcomes j)) order _ i
      (by simpa using hi)]
    have : i ∈ order := horder.mem_iff.mpr (List.mem_range.mpr hi)
    simp [this]
  refine ⟨hlen, hget, fun i hi herr => ?_⟩
  rw [hget i hi, herr]
  rfl

/-- Witness for C4 with two prompts completing in reverse order `[1, 0]`:
slot 0 still holds task 0's stripped value and slot 1 (whose task raised)
is absent. -/
theorem C4_slot_alignment_witness :
    (process_all_prompts [strChars "p", strChars "q"]
        (fun i => if i = 0 then .ok (some (strChars " a ")) else .error ()) [1, 0]).length = 2 ∧
    (process_all_prompts [strChars "p", strChars "q"]
        (fun i => if i = 0 then .ok (some (strChars " a ")) else .error ()) [1, 0])[0]? =
      some (collectResult (.ok (some (strChars " a ")))) ∧
    (process_all_prompts [strChars "p", strChars "q"]
        (fun i => if i = 0 then .ok (some (strChars " a ")) else .error ()) [1, 0])[1]? =
      some none := by
  have h := C4_slot_alignment [strChars "p", strChars "q"]
    (fun i => if i = 0 then .ok (some (strChars " a ")) else .error ()) [1, 0]
    (by decide)
  exact ⟨h.1, h.2.1 0 (by decide), h.2.2 1 (by decide) rfl⟩

/-- Lemma for C3: merging a single result whose header already has at
least two cells goes straight to the row-merge step. -/
theorem write_results_to_csv_single (header : List PyStr) (dataRows : List (List PyStr))
    (idx : Nat) (s r : PyStr) (hw : 2 ≤ header.length) :
    write_results_to_csv (header :: dataRows) [(idx, s, r)] =
      writeRowYesNo (header :: dataRows) idx s r := by
  unfold write_results_to_csv
  simp [Nat.not_lt.mpr hw]

/-- Lemma for C3: writing at a 1-based row index that the table does not
reach yet appends empty-cell rows of header width up to and including the
target row, then writes the sentence and result into the target row's
first two cells. -/
theorem writeRowYesNo_extend (header : List PyStr) (dataRows : List (List PyStr))
    (idx : Nat) (s r : PyStr) (hw : 2 ≤ header.length) (hlt : dataRows.length < idx) :
    writeRowYesNo (header :: dataRows) idx s r =
      (header :: (dataRows ++ List.replicate (idx - dataRows.length)
          (List.replicate header.length ([] : PyStr)))).set idx
        (((List.replicate header.length ([] : PyStr)).set 0 s).set 1 r) := by
  have hrow : (header :: (dataRows ++ List.replicate (idx - dataRows.length)
      (List.replicate header.length ([] : PyStr)))).getD idx [] =
      List.replicate header.length ([] : PyStr) := by
    obtain ⟨m, rfl⟩ : ∃ m, idx = m + 1 := ⟨idx - 1, by omega⟩
    simp only [List.getD, List.get?_eq_getElem?, List.getElem?_cons_succ]
    rw [List.getElem?_append, if_neg (by omega), List.getElem?_replicate, if_pos (by omega)]
    rfl
  unfold writeRowYesNo growRows
  simp only [List.headD, List.length_cons, Nat.succ_sub_succ, List.cons_append]
  rw [hrow, List.length_replicate, Nat.sub_eq_zero_of_le hw, List.replicate_zero,
    List.append_nil]

/-- C3: writing a result at 1-based index `idx` into a table whose data
row count is smaller than `idx` gives a table reaching row `idx`, with the
header unchanged, every existing data row unchanged cell for cell (nothing
truncated), every intervening row an empty-string row of header width, and
the target row an empty-string row of header width whose first two cells
were then overwritten with the sentence and the result. -/
theorem C3_csv_merge (header : List PyStr) (dataRows : List (List PyStr))
    (idx : Nat) (s r : PyStr) (hw : 2 ≤ header.length) (hlt : dataRows.length < idx) :
    (write_results_to_csv (header :: dataRows) [(idx, s, r)]).length = idx + 1 ∧
    (write_results_to_csv (header :: dataRows) [(idx, s, r)])[0]? = some header ∧
    (∀ j, j < dataRows.length →
      (write_results_to_csv (header :: dataRows) [(idx, s, r)])[j + 1]? = dataRows[j]?) ∧
    (∀ j, dataRows.length ≤ j → j + 1 < idx →
      (write_results_to_csv (header :: dataRows) [(idx, s, r)])[j + 1]? =
        some (List.replicate header.length ([] : PyStr))) ∧
    (write_results_to_csv (header :: dataRows) [(idx, s, r)])[idx]? =
      some (((List.replicate header.length ([] : PyStr)).set 0 s).set 1 r) := by
  rw [write_results_to_csv_single header dataRows idx s r hw,
    writeRowYesNo_extend header dataRows idx s r hw hlt]
  refine ⟨?_, ?_, ?_, ?_, ?_⟩
  · simp [List.length_set, List.length_replicate]
    omega
  · rw [List.getElem?_set_ne (by omega : idx ≠ 0)]
    simp
  · intro j hj
    rw [List.getElem?_set_ne (by omega : idx ≠ j + 1), List.getElem?_cons_succ,
      List.getElem?_append, if_pos hj]
  · intro j hj1 hj2
    rw [List.getElem?_set_ne (by omega : idx ≠ j + 1), List.getElem?_cons_succ,
      List.getElem?_append, if_neg (by omega), List.getElem?_replicate,
      if_pos (by omega)]
  · exact List.getElem?_set_eq_of_lt _ (by simp [List.length_replicate]; omega)

/-- Witness for C3: one result at index 2 written into a table with a
three-column header and no data rows. -/
theorem C3_csv_merge_witness :
    (write_results_to_csv [[strChars "原句", strChars "AI理解", strChars "备注"]]
        [(2, strChars "明天.", strChars "对")]).length = 3 ∧
    (write_results_to_csv [[strChars "原句", strChars "AI理解", strChars "备注"]]
        [(2, strChars "明天.", strChars "对")])[1]? =
      some (List.replicate 3 ([] : PyStr)) ∧
    (write_results_to_csv [[strChars "原句", strChars "AI理解", strChars "备注"]]
        [(2, strChars "明天.", strChars "对")])[2]? =
      some (((List.replicate 3 ([] : PyStr)).set 0 (strChars "明天.")).set 1 (strChars "对")) := by
  have h := C3_csv_merge [strChars "原句", strChars "AI理解", strChars "备注"] []
    2 (strChars "明天.") (strChars "对") (by decide) (by decide)
  exact ⟨h.1, h.2.2.2.1 0 (by decide) (by decide), h.2.2.2.2⟩

/-- C1 failing input: the loader skips the empty row 2, producing indices
1 and 3, but the batch persister writes result `i` of the batch at
`offset + i`, the sentence's position in the *filtered* list.  The
judgment `错` of the sentence with original index 3 (`乙`) therefore lands
in data row 2 — the skipped row — while data row 3 (`乙`'s own row, its
`IndexedSentence.index − 1` position) is left untouched. -/
theorem C1_skip_misalignment :
    load_sentences_from_csv [[strChars "甲"], [strChars ""], [strChars "乙"]] =
      [(1, strChars "甲。"), (3, strChars "乙。")] ∧
    write_results_to_csv_explain
      [[strChars "原句"], [strChars "甲"], [strChars ""], [strChars "乙"]]
      [some (strChars "对"), some (strChars "错")] 0 =
      some [[strChars "原句", strChars "ai判断", strChars "ai理解"],
            [strChars "甲", strChars "对", []],
            [[], strChars "错", []],
            [strChars "乙"]] := by decide

/-- C8 counterexample: `ai_yes_no.py`'s `write_results_to_txt` opens the
failure log with mode `'a'`, so persisting a batch appends to the old
content; afterward the file still lists the stale pair `[9] ...`, which is
not a currently-failed pair, so the file does not list exactly the
currently-failed pairs. -/
theorem C8_counterexample :
    write_results_to_txt (strChars "[9] 旧句。\n") [(1, strChars "甲。")] [none] =
      strChars "[9] 旧句。\n[1] 甲。\n" ∧
    strChars "[9] 旧句。\n[1] 甲。\n" ≠
      write_failed_to_txt [(1, strChars "甲。")] [none] := by decide

/-- Lemma for C8: `write_failed_to_txt` produces exactly one
`[idx] sentence` line per pair whose result is absent, in order. -/
theorem write_failed_content_eq (pairs : List (Nat × PyStr)) (results : List (Option PyStr)) :
    write_failed_to_txt pairs results =
      List.flatten (((pairs.zip results).filter (fun pr => pr.2.isNone)).map
        (fun pr => failedLine pr.1.1 pr.1.2)) := by
  induction pairs generalizing results with
  | nil => cases results <;> rfl
  | cons p ps ih =>
    cases results with
    | nil => rfl
    | cons r rs =>
      obtain ⟨i, s⟩ := p
      cases r with
      | none => simp [write_failed_to_txt, ih]
      | some t => simp [write_failed_to_txt, ih]

/-- Lemma for C8: `write_results_to_txt` appends its failure lines to the
old file content. -/
theorem write_results_to_txt_appends (old : PyStr) (pairs : List (Nat × PyStr))
    (results : List (Option PyStr)) :
    write_results_to_txt old pairs results =
      old ++ List.flatten (((pairs.zip results).filter (fun pr => resultFalsy pr.2)).map
        (fun pr => failedLine pr.1.1 pr.1.2)) := by
  induction pairs generalizing results old with
  | nil => cases results <;> simp [write_results_to_txt]
  | cons p ps ih =>
    cases results with
    | nil => simp [write_results_to_txt]
    | cons r rs =>
      obtain ⟨i, s⟩ := p
      by_cases hr : resultFalsy r
      · simp [write_results_to_txt, hr, ih]
      · simp [write_results_to_txt, hr, ih]

/-- C8 amended: `ai_explain.py`'s failure sink `write_failed_to_txt` opens
with mode `'w'`, so afterward the file holds exactly one `[idx] sentence`
line per currently-failed pair, in order, whatever it held before; but
`ai_yes_no.py`'s failure sink `write_results_to_txt` opens with mode `'a'`
and instead appends its failure lines to the old content. -/
theorem C8_failure_log (old : PyStr) (pairs : List (Nat × PyStr))
    (results : List (Option PyStr)) :
    write_failed_to_txt pairs results =
      List.flatten (((pairs.zip results).filter (fun pr => pr.2.isNone)).map
        (fun pr => failedLine pr.1.1 pr.1.2)) ∧
    write_results_to_txt old pairs results =
      old ++ List.flatten (((pairs.zip results).filter (fun pr => resultFalsy pr.2)).map
        (fun pr => failedLine pr.1.1 pr.1.2)) :=
  ⟨write_failed_content_eq pairs results, write_results_to_txt_appends old pairs results⟩

/-- C9 counterexample: in the two-row scenario the loader keeps `明天.`
unchanged, because the ASCII period is itself in the recognized terminator
tuple, so when row 2 exhausts its retries the failure log line is
`[2] 明天.` — not the `[2] 明天。` the claim expects. -/
theorem C9_counterexample :
    load_sentences_from_csv [[strChars "天气很好。"], [strChars "明天."]] =
      [(1, strChars "天气很好。"), (2, strChars "明天.")] ∧
    write_failed_to_txt
      (load_sentences_from_csv [[strChars "天气很好。"], [strChars "明天."]])
      [some (strChars "对\n解释A"), none] = strChars "[2] 明天.\n" ∧
    strChars "[2] 明天.\n" ≠ strChars "[2] 明天。\n" := by decide

/-- C9 amended: in the two-row scenario with template `判断：\x7b0\x7d`,
when row 1 succeeds and row 2 exhausts its retries, the failure log holds
exactly the one line `[2] 明天.` (ASCII period kept, since `.` is a
recognized terminator) and the success log receives exactly the one block
for row 1. -/
theorem C9_scenario :
    build_prompts (strChars "判断：\x7b0\x7d")
      (load_sentences_from_csv [[strChars "天气很好。"], [strChars "明天."]]) =
      .ok [strChars "判断：天气很好。", strChars "判断：明天."] ∧
    write_failed_to_txt
      (load_sentences_from_csv [[strChars "天气很好。"], [strChars "明天."]])
      [some (strChars "对\n解释A"), none] =
      failedLine 2 (strChars "明天.") ∧
    write_success_results_to_txt
      (load_sentences_from_csv [[strChars "天气很好。"], [strChars "明天."]])
      [some (strChars "对\n解释A"), none] =
      successBlock 1 (strChars "天气很好。") (strChars "对") (strChars "解释A") := by decide

/-- Every character produced by `digitChar` is an ASCII digit. -/
theorem digitChar_isDigit (d : Nat) : (digitChar d).isDigit = true := by
  unfold digitChar
  split_ifs <;> rfl

/-- Below 10, `digitChar` inverts to its digit value. -/
theorem digitChar_toNat (d : Nat) (h : d < 10) : (digitChar d).toNat - 48 = d := by
  interval_cases d <;> rfl

/-- All characters of a rendered numeral are ASCII digits. -/
theorem renderNatGo_all_digits (fuel n : Nat) :
    (renderNatGo fuel n).all Char.isDigit = true := by
  induction fuel generalizing n with
  | zero => rfl
  | succ k ih =>
    unfold renderNatGo
    split_ifs with h
    · simp [digitChar_isDigit]
    · simp [List.all_append, ih, digitChar_isDigit]

/-- A rendered numeral with fuel left is never empty. -/
theorem renderNatGo_ne_nil (fuel n : Nat) (h : 0 < fuel) : renderNatGo fuel n ≠ [] := by
  cases fuel with
  | zero => omega
  | succ k =>
    unfold renderNatGo
    split_ifs <;> simp

/-- Parsing inverts rendering whenever the fuel suffices. -/
theorem parseNatDigits_renderNatGo (n : Nat) : ∀ fuel, n < fuel →
    parseNatDigits (renderNatGo fuel n) = n := by
  induction n using Nat.strong_induction_on with
  | _ n ih =>
    intro fuel hf
    cases fuel with
    | zero => omega
    | succ k =>
      unfold renderNatGo
      split_ifs with h10
      · simp [parseNatDigits, digitChar_toNat n h10]
      · have hdiv : n / 10 < n := Nat.div_lt_self (by omega) (by omega)
        unfold parseNatDigits
        rw [List.foldl_append]
        have hrec := ih (n / 10) hdiv k (by omega)
        unfold parseNatDigits at hrec
        rw [hrec]
        simp only [List.foldl_cons, List.foldl_nil]
        rw [digitChar_toNat (n % 10) (Nat.mod_lt n (by omega))]
        omega

/-- Decimal parse of a decimal rendering gives back the number. -/
theorem parseNatDigits_renderNat (n : Nat) : parseNatDigits (renderNat n) = n :=
  parseNatDigits_renderNatGo n (n + 1) (by omega)

/-- An ASCII digit is not in the whitespace class. -/
theorem pyIsSpace_of_isDigit (c : Char) (h : c.isDigit = true) : pyIsSpace c = false := by
  unfold pyIsSpace
  simp only [Bool.or_eq_false_iff, decide_eq_false_iff_not]
  refine ⟨⟨⟨⟨⟨?_, ?_⟩, ?_⟩, ?_⟩, ?_⟩, ?_⟩ <;> (rintro rfl; revert h; decide)

/-- An ASCII digit is not the newline character. -/
theorem ne_newline_of_isDigit (c : Char) (h : c.isDigit = true) : c ≠ '\n' := by
  rintro rfl; revert h; decide

/-- A list whose head does not satisfy the predicate is unchanged by
`dropWhile`. -/
theorem dropWhile_eq_self_of_head? (p : Char → Bool) (l : PyStr)
    (h : ∀ c, l.head? = some c → p c = false) : l.dropWhile p = l := by
  cases l with
  | nil => rfl
  | cons a t => simp [List.dropWhile_cons, h a rfl]

/-- A string with no leading and no trailing whitespace character strips
to itself. -/
theorem pyStrip_eq_self (l : PyStr)
    (h1 : ∀ c, l.head? = some c → pyIsSpace c = false)
    (h2 : ∀ c, l.getLast? = some c → pyIsSpace c = false) : pyStrip l = l := by
  unfold pyStrip
  rw [dropWhile_eq_self_of_head? pyIsSpace l h1]
  rw [dropWhile_eq_self_of_head? pyIsSpace l.reverse
    (fun c hc => h2 c (by rwa [List.head?_reverse] at hc))]
  exact List.reverse_reverse l

/-- `pySplit` never returns the empty list of pieces. -/
theorem pySplit_ne_nil (sep : Char) (l : PyStr) : pySplit sep l ≠ [] := by
  induction l with
  | nil => simp [pySplit]
  | cons c cs ih =>
    unfold pySplit
    cases h : pySplit sep cs with
    | nil => exact absurd h ih
    | cons a t => split_ifs <;> simp

/-- Splitting on newline peels off a newline-free first line. -/
theorem pySplit_append_cons (a rest : PyStr) (ha : '\n' ∉ a) :
    pySplit '\n' (a ++ '\n' :: rest) = a :: pySplit '\n' rest := by
  induction a with
  | nil =>
    simp only [List.nil_append]
    cases h : pySplit '\n' rest with
    | nil => exact absurd h (pySplit_ne_nil '\n' rest)
    | cons x t =>
      conv_lhs => rw [pySplit, h]
      simp [h]
  | cons c cs ih =>
    have hc : c ≠ '\n' := fun hh => ha (hh ▸ List.mem_cons_self c cs)
    have hcs : '\n' ∉ cs := fun hh => ha (List.mem_cons_of_mem c hh)
    simp only [List.cons_append]
    conv_lhs => rw [pySplit, ih hcs]
    simp [hc]

/-- A maximal digit run followed by a non-digit splits cleanly under
`takeWhile`/`dropWhile`. -/
theorem takeWhile_digits_append (ds rest : PyStr) (hds : ds.all Char.isDigit = true)
    (hrest : ∀ c, rest.head? = some c → c.isDigit = false) :
    (ds ++ rest).takeWhile Char.isDigit = ds ∧
    (ds ++ rest).dropWhile Char.isDigit = rest := by
  induction ds with
  | nil =>
    refine ⟨?_, dropWhile_eq_self_of_head? Char.isDigit rest hrest⟩
    cases rest with
    | nil => rfl
    | cons b t => simp [List.takeWhile_cons, hrest b rfl]
  | cons d ds ih =>
    simp only [List.all_cons, Bool.and_eq_true] at hds
    obtain ⟨hd, hds'⟩ := hds
    have hih := ih hds'
    constructor
    · simp [List.takeWhile_cons, hd, hih.1]
    · simp [List.dropWhile_cons, hd, hih.2]

/-- The regex model accepts exactly one failure-log body, recovering the
index and the sentence, provided the sentence does not begin with
whitespace. -/
theorem parseFailedLine_body (i : Nat) (s : PyStr)
    (hhead : ∀ c, s.head? = some c → pyIsSpace c = false) :
    parseFailedLine ('[' :: (renderNat i ++ ']' :: ' ' :: s)) = some (i, s) := by
  have hall : (renderNat i).all Char.isDigit = true := renderNatGo_all_digits (i + 1) i
  have htw := takeWhile_digits_append (renderNat i) (']' :: ' ' :: s) hall
    (by intro c hc; cases hc; rfl)
  have hne : renderNat i ≠ [] := renderNatGo_ne_nil (i + 1) i (by omega)
  simp only [parseFailedLine]
  rw [htw.1, htw.2]
  simp [hne, List.takeWhile_cons, List.dropWhile_cons,
    (by decide : pyIsSpace ' ' = true),
    dropWhile_eq_self_of_head? pyIsSpace s hhead, parseNatDigits_renderNat]

/-- A string that `pyStrip` leaves unchanged has no whitespace at either
end. -/
theorem ends_not_space_of_pyStrip_eq (s : PyStr) (hps : pyStrip s = s) :
    (∀ c, s.head? = some c → pyIsSpace c = false) ∧
    (∀ c, s.getLast? = some c → pyIsSpace c = false) := by
  have hsub1 : List.Sublist (s.dropWhile pyIsSpace) s := List.dropWhile_sublist ..
  have hsub2 : List.Sublist ((s.dropWhile pyIsSpace).reverse.dropWhile pyIsSpace)
      (s.dropWhile pyIsSpace).reverse := List.dropWhile_sublist ..
  have hlen : s.length = ((s.dropWhile pyIsSpace).reverse.dropWhile pyIsSpace).length := by
    conv_lhs => rw [← hps]
    simp [pyStrip]
  have hd1 : s.dropWhile pyIsSpace = s := by
    refine hsub1.eq_of_length ?_
    have h1 := hsub1.length_le
    have h2 := hsub2.length_le
    simp only [List.length_reverse] at h2
    omega
  have hd2 : s.reverse.dropWhile pyIsSpace = s.reverse := by
    have : pyStrip s = (s.reverse.dropWhile pyIsSpace).reverse := by
      simp [pyStrip, hd1]
    rw [hps] at this
    have h3 := congrArg List.reverse this
    simp only [List.reverse_reverse] at h3
    exact h3.symm
  constructor
  · intro c hc
    obtain ⟨t, rfl⟩ : ∃ t, s = c :: t := by
      cases s with
      | nil => cases hc
      | cons a t => exact ⟨t, by cases hc; rfl⟩
    by_contra hcs
    rw [Bool.not_eq_false] at hcs
    rw [List.dropWhile_cons, if_pos hcs] at hd1
    have := (List.dropWhile_sublist (l := t) (p := pyIsSpace)).length_le
    have hlt : (c :: t).length = t.length + 1 := rfl
    rw [hd1] at this
    omega
  · intro c hc
    have hc' : s.reverse.head? = some c := by rwa [List.head?_reverse]
    obtain ⟨t, ht⟩ : ∃ t, s.reverse = c :: t := by
      cases hrev : s.reverse with
      | nil => rw [hrev] at hc'; cases hc'
      | cons a t => rw [hrev] at hc'; exact ⟨t, by cases hc'; rfl⟩
    by_contra hcs
    rw [Bool.not_eq_false] at hcs
    rw [ht, List.dropWhile_cons, if_pos hcs] at hd2
    have := (List.dropWhile_sublist (l := t) (p := pyIsSpace)).length_le
    rw [hd2] at this
    simp at this

/-- When every result is absent, the failure log holds one line per pair,
in order. -/
theorem write_failed_all_none (pairs : List (Nat × PyStr)) :
    write_failed_to_txt pairs (List.replicate pairs.length none) =
      List.flatten (pairs.map (fun p => failedLine p.1 p.2)) := by
  induction pairs with
  | nil => rfl
  | cons p ps ih =>
    obtain ⟨i, s⟩ := p
    simp [write_failed_to_txt, List.length_cons, List.replicate_succ, ih]

/-- Reading back a failure log consisting of well-formed lines recovers
every pair. -/
theorem load_flatten_failedLines (pairs : List (Nat × PyStr))
    (h : ∀ p ∈ pairs, p.2 ≠ [] ∧ '\n' ∉ p.2 ∧ pyStrip p.2 = p.2) :
    load_failed_sentences
      (List.flatten (pairs.map (fun p => failedLine p.1 p.2))) = pairs := by
  induction pairs with
  | nil => rfl
  | cons p ps ih =>
    obtain ⟨i, s⟩ := p
    obtain ⟨hs, hnl, hstrip⟩ := h (i, s) (List.mem_cons_self _ _)
    obtain ⟨hhead, hlast⟩ := ends_not_space_of_pyStrip_eq s hstrip
    have hrest := ih (fun q hq => h q (List.mem_cons_of_mem _ hq))
    have hnlB : '\n' ∉ '[' :: (renderNat i ++ ']' :: ' ' :: s) := by
      intro hmem
      simp only [List.mem_cons, List.mem_append] at hmem
      rcases hmem with h1 | h2 | h3 | h4 | h5
      · exact absurd h1 (by decide)
      · exact ne_newline_of_isDigit '\n'
          (List.all_eq_true.mp (renderNatGo_all_digits (i + 1) i) _ h2) rfl
      · exact absurd h3 (by decide)
      · exact absurd h4 (by decide)
      · exact hnl h5
    have hlastB : ('[' :: (renderNat i ++ ']' :: ' ' :: s)).getLast? = s.getLast? := by
      rw [(by simp : '[' :: (renderNat i ++ ']' :: ' ' :: s) =
        ('[' :: renderNat i ++ [']', ' ']) ++ s)]
      exact List.getLast?_append_of_ne_nil _ hs
    have hheadB : ∀ c, ('[' :: (renderNat i ++ ']' :: ' ' :: s)).head? = some c →
        pyIsSpace c = false := by
      intro c hc
      cases hc
      decide
    simp only [List.map_cons, List.flatten_cons]
    unfold load_failed_sentences at hrest ⊢
    rw [(by simp [failedLine] :
      failedLine i s ++ List.flatten (ps.map (fun p => failedLine p.1 p.2)) =
        ('[' :: (renderNat i ++ ']' :: ' ' :: s)) ++
          '\n' :: List.flatten (ps.map (fun p => failedLine p.1 p.2)))]
    rw [pySplit_append_cons _ _ hnlB]
    simp only [List.map_cons, List.filterMap_cons]
    rw [pyStrip_eq_self _ hheadB (fun c hc => hlast c (hlastB ▸ hc))]
    rw [parseFailedLine_body i s hhead]
    rw [hrest]

/-- C10: writing pairs that all lack a successful result with
`write_failed_to_txt` and reading the file back with
`load_failed_sentences` returns exactly the same pairs in the same order,
provided each index is positive and each sentence is non-empty, contains
no newline, and has no leading or trailing whitespace (`pyStrip` leaves it
unchanged). -/
theorem C10_roundtrip (pairs : List (Nat × PyStr))
    (h : ∀ p ∈ pairs, 0 < p.1 ∧ p.2 ≠ [] ∧ '\n' ∉ p.2 ∧ pyStrip p.2 = p.2) :
    load_failed_sentences
      (write_failed_to_txt pairs (List.replicate pairs.length none)) = pairs := by
  rw [write_failed_all_none]
  exact load_flatten_failedLines pairs (fun p hp => (h p hp).2)

/-- Witness for C10 at two concrete pairs, one with a multi-digit index
and an interior space. -/
theorem C10_roundtrip_witness :
    load_failed_sentences
      (write_failed_to_txt [(2, strChars "明天."), (15, strChars "甲 乙。")]
        (List.replicate ([(2, strChars "明天."), (15, strChars "甲 乙。")] :
          List (Nat × PyStr)).length none)) =
      [(2, strChars "明天."), (15, strChars "甲 乙。")] :=
  C10_roundtrip [(2, strChars "明天."), (15, strChars "甲 乙。")] (by decide)
